import Mathlib

/-!
Verification of the ChatKit seller-assistant backend (`backend/app/chat.py`
with its widget modules) against its design specification.

The Python sources are shallowly embedded: pure helpers become Lean
functions, `async` side effects (streaming widgets, the pending client
tool call slot) become explicit state threading, exceptions become
`Except`/`Option`, and collaborators whose behaviour is external
(`fact_store`, the weather module, `inspect.signature` of a pluggable
converter) become oracle parameters describing each possible outcome.
-/

namespace ChatKit

/-! ## Python string primitives

`str.strip()`, `str.lower()`, `sep.join(...)` and the substring test
`pat in s` are modelled character-wise. -/

/-- The whitespace characters removed by Python `str.strip()`. -/
def isPySpace (c : Char) : Bool :=
  c = ' ' || c = '\t' || c = '\n' || c = '\x0d' || c = '\x0b' || c = '\x0c'

/-- Python `str.strip()` on a character list: drop the maximal whitespace prefix
and suffix. -/
def pyStripChars (l : List Char) : List Char :=
  ((l.dropWhile isPySpace).reverse.dropWhile isPySpace).reverse

/-- Python `str.strip()`. -/
def pyStrip (s : String) : String :=
  ⟨pyStripChars s.data⟩

/-- Python `str.lower()`, character-wise. -/
def pyLower (s : String) : String :=
  ⟨s.data.map Char.toLower⟩

/-- Python `sep.join(parts)`. -/
def pyJoin (sep : String) : List String → String
  | [] => ""
  | [s] => s
  | s :: rest => s ++ sep ++ pyJoin sep rest

/-- Python `pat in s` (substring containment). -/
def pyContains (s pat : String) : Prop :=
  pat.data <:+: s.data

instance (s pat : String) : Decidable (pyContains s pat) :=
  List.decidableInfix pat.data s.data

/-! ## Theme normalization (`_normalize_color_scheme`) -/

/-- The `SUPPORTED_COLOR_SCHEMES` constant from `chat.py`. -/
def SUPPORTED_COLOR_SCHEMES : List String := ["light", "dark"]

/-- The branch structure of `_normalize_color_scheme` on the already
stripped-and-lowercased value: accept an exact supported value, otherwise
test substring containment of `"dark"` then `"light"`, else fail
(`ValueError`, modelled as `none`). -/
def colorSchemeDecision (normalized : String) : Option String :=
  if normalized ∈ SUPPORTED_COLOR_SCHEMES then some normalized
  else if pyContains normalized "dark" then some "dark"
  else if pyContains normalized "light" then some "light"
  else none

/-- Function `_normalize_color_scheme` from `chat.py`: strip and lowercase the
input, then decide. -/
def normalizeColorScheme (value : String) : Option String :=
  colorSchemeDecision (pyLower (pyStrip value))

example : normalizeColorScheme "  DARK  " = some "dark" := by decide
example : normalizeColorScheme "Light" = some "light" := by decide
example : normalizeColorScheme "darkish-mode" = some "dark" := by decide
example : normalizeColorScheme "twilight" = some "light" := by decide
example : normalizeColorScheme "blue" = none := by decide

/-! ## Thread items

`chatkit.types.ThreadItem` is a tagged variant; the resolver inspects only
whether an item is a `UserMessageItem` (whose content parts each optionally
carry a `text` attribute) or a `ClientToolCallItem`. -/

/-- A thread item as seen by the resolver.  A `userMessage` carries for each
content part the value of its optional `text` attribute (`none` when the
part has no such attribute). -/
inductive ThreadItemV
  | userMessage (parts : List (Option String))
  | clientToolCall
  | hiddenContext (content : String)
  | other
deriving DecidableEq

/-- Function `_is_tool_completion_item` from `chat.py`. -/
def isToolCompletionItem : ThreadItemV → Bool
  | .clientToolCall => true
  | _ => false

/-- Function `_user_message_text` from `chat.py`: collect each content part's `text`
attribute when it is present and truthy (non-empty), join with a single
space, and strip. -/
def userMessageText (parts : List (Option String)) : String :=
  pyStrip (pyJoin " " ((parts.filterMap id).filter (fun t => t != "")))

example : userMessageText [some "Hello", some "world"] = "Hello world" := by decide
example : userMessageText [some "Hello", none, some "", some "world"] = "Hello world" := by
  decide

/-! ## The pluggable thread-item converter

`FactAssistantServer._to_agent_input` probes an optional converter object
for a recognized conversion method.  A converter method is characterized by
its name and by what `inspect.signature` reports: `none` when
`inspect.signature` raises `TypeError`/`ValueError`, otherwise the ordered
parameter list with each parameter's kind (for a bound method, `self` is
already excluded). -/

inductive ParamKind
  | positionalOnly
  | positionalOrKeyword
  | varPositional
  | keywordOnly
  | varKeyword
deriving DecidableEq

structure SigParam where
  name : String
  kind : ParamKind
deriving DecidableEq

structure ConverterMethod where
  name : String
  signature : Option (List SigParam)
deriving DecidableEq

structure Converter where
  methods : List ConverterMethod

/-- Python `getattr(converter, attr, None)` for method attributes. -/
def Converter.getattr (c : Converter) (attr : String) : Option ConverterMethod :=
  c.methods.find? (fun m => m.name == attr)

/-- The fixed preference order of recognized conversion method names in
`_to_agent_input`. -/
def converterMethodOrder : List String :=
  ["to_input_item", "convert", "convert_item", "convert_thread_item"]

/-- The probing loop of `_to_agent_input`: the first method, in the fixed
preference order, that the converter exposes. -/
def probeConverterMethod (c : Converter) : Option ConverterMethod :=
  converterMethodOrder.findSome? c.getattr

/-- How the thread reference is passed to a converter method. -/
inductive ThreadArgPassing
  | notPassed
  | positional
  | keyword (paramName : String)
deriving DecidableEq

/-- A signature parameter is non-variadic when it is neither `*args` nor
`**kwargs`. -/
def nonVariadic (p : SigParam) : Bool :=
  p.kind != ParamKind.varPositional && p.kind != ParamKind.varKeyword

/-- The argument-shape computation of `_to_agent_input`: with no obtainable
signature the thread is not passed; otherwise, when at least two
non-variadic parameters exist, the thread is passed positionally if the
second one is positional-capable, else by keyword under its name. -/
def threadArgPassing (m : ConverterMethod) : ThreadArgPassing :=
  match m.signature with
  | none => .notPassed
  | some sig =>
    match sig.filter nonVariadic with
    | _ :: nextParam :: _ =>
      if nextParam.kind = ParamKind.positionalOnly ∨
          nextParam.kind = ParamKind.positionalOrKeyword then
        .positional
      else
        .keyword nextParam.name
    | _ => .notPassed

/-- The second non-variadic parameter of a method's signature, when the
signature is obtainable and has one. -/
def secondNonVariadicParam (m : ConverterMethod) : Option SigParam :=
  match m.signature with
  | none => none
  | some sig => (sig.filter nonVariadic)[1]?

/-- The observable shape of one converter-method invocation: which method
was called, the thread item passed as first argument, and how the thread
reference was passed. -/
structure CallRecord where
  methodName : String
  firstArg : ThreadItemV
  threadArg : ThreadArgPassing
deriving DecidableEq

/-- The converter method's result, which may or may not be awaitable. -/
inductive CallOutcome (α : Type)
  | plain (v : α)
  | awaitable (v : α)

/-- The `inspect.isawaitable` dispatch in `_to_agent_input`: an awaitable result
is awaited, a plain result is returned as is. -/
def awaitIfAwaitable : CallOutcome α → α
  | .plain v => v
  | .awaitable v => v

/-- The value `_to_agent_input` resolves to: either the (awaited) result of
the one converter call made, or the fallback user-message text. -/
inductive ResolvedInput (α : Type)
  | viaConverter (call : CallRecord) (value : α)
  | fallbackText (text : String)

/-- The `UserMessageItem` fallback at the end of `_to_agent_input`. -/
def fallbackInput (item : ThreadItemV) : Option (ResolvedInput α) :=
  match item with
  | .userMessage parts => some (.fallbackText (userMessageText parts))
  | _ => none

/-- Method `FactAssistantServer._to_agent_input`: a tool-completion item resolves
to nothing; with a configured converter exposing a recognized method, that
first method is called on the item (thread passed per its signature) and
its result awaited if awaitable; otherwise fall back to user-message text
extraction.  `behave` is the oracle for what a converter call returns. -/
def toAgentInput (converter : Option Converter) (behave : CallRecord → CallOutcome α)
    (item : ThreadItemV) : Option (ResolvedInput α) :=
  if isToolCompletionItem item then none
  else
    match converter with
    | some c =>
      match probeConverterMethod c with
      | some m =>
        let call : CallRecord := ⟨m.name, item, threadArgPassing m⟩
        some (.viaConverter call (awaitIfAwaitable (behave call)))
      | none => fallbackInput item
    | none => fallbackInput item

/-! ## The respond turn (`FactAssistantServer.respond`) -/

/-- The outcome of `store.load_thread_items(thread.id, None, 1, "desc",
context)`: a page of items, or a raised exception. -/
inductive FetchResult
  | ok (items : List ThreadItemV)
  | error

/-- Method `FactAssistantServer._latest_thread_item`: a store error is swallowed
to `none`; an empty (falsy) page yields `none`; otherwise the first item of
the page. -/
def latestThreadItem : FetchResult → Option ThreadItemV
  | .error => none
  | .ok [] => none
  | .ok (x :: _) => some x

/-- Method `FactAssistantServer.respond`, with the running phase abstracted: once
an agent input is resolved, the events the runner's stream yields are given
by the oracle `runnerEvents`.  Every early-return path yields the empty
event list. -/
def respond (inbound : Option ThreadItemV) (fetch : FetchResult)
    (converter : Option Converter) (behave : CallRecord → CallOutcome α)
    (runnerEvents : ResolvedInput α → List ε) : List ε :=
  let target : Option ThreadItemV :=
    match inbound with
    | some i => some i
    | none => latestThreadItem fetch
  match target with
  | none => []
  | some t =>
    if isToolCompletionItem t then []
    else
      match toAgentInput converter behave t with
      | none => []
      | some input => runnerEvents input

/-! ## Agent-context state shared by the tools

The tools mutate two observable pieces of per-turn state: the hidden
context events streamed so far, and the `client_tool_call` slot. -/

structure ClientToolCallV where
  name : String
  arguments : List (String × String)
deriving DecidableEq

structure TurnCtx where
  hiddenEvents : List String
  clientToolCall : Option ClientToolCallV
deriving DecidableEq

/-! ## `switch_theme` -/

/-- The `CLIENT_THEME_TOOL_NAME` constant from `chat.py`. -/
def CLIENT_THEME_TOOL_NAME : String := "switch_theme"

/-- The `switch_theme` tool: normalize the requested theme; on success set
the pending client tool call and return the normalized theme; on any
failure log and return `None` (modelled as `none`), leaving the context
untouched. -/
def switchTheme (theme : String) (ctx : TurnCtx) :
    Option (List (String × String)) × TurnCtx :=
  match normalizeColorScheme theme with
  | none => (none, ctx)
  | some requested =>
    (some [("theme", requested)],
     { ctx with
        clientToolCall :=
          some ⟨CLIENT_THEME_TOOL_NAME, [("theme", requested)]⟩ })

/-! ## `save_fact` and `_stream_saved_hidden` -/

structure Fact where
  id : String
  text : String
deriving DecidableEq

/-- Oracle for the external collaborators of `save_fact`: the outcomes of
`fact_store.create`, `fact_store.mark_saved`, and of awaiting
`ctx.context.stream` on the hidden item (`Except.error` models a raised
exception). -/
structure FactEnv where
  create : String → Except String Fact
  markSaved : String → Except String (Option Fact)
  streamHidden : String → Except String Unit

/-- The hidden-context content built by `_stream_saved_hidden`. -/
def factSavedHiddenContent (threadId : String) (fact : Fact) : String :=
  "<FACT_SAVED id=\"" ++ fact.id ++ "\" threadId=\"" ++ threadId ++ "\">"
    ++ fact.text ++ "</FACT_SAVED>"

structure SavePayload where
  factId : String
  status : String
deriving DecidableEq

/-- The `save_fact` tool: create the fact, confirm it via `mark_saved`
(`None` confirmation raises), stream the hidden `FACT_SAVED` event, record
the pending `record_fact` client tool call, and return the confirmed id;
any exception anywhere in the body is caught, logged, and turned into a
`None` result with no state change. -/
def saveFact (env : FactEnv) (threadId : String) (factText : String)
    (ctx : TurnCtx) : Option SavePayload × TurnCtx :=
  match env.create factText with
  | .error _ => (none, ctx)
  | .ok saved =>
    match env.markSaved saved.id with
    | .error _ => (none, ctx)
    | .ok none => (none, ctx)
    | .ok (some confirmed) =>
      match env.streamHidden (factSavedHiddenContent threadId confirmed) with
      | .error _ => (none, ctx)
      | .ok _ =>
        (some ⟨confirmed.id, "saved"⟩,
         { ctx with
            hiddenEvents :=
              ctx.hiddenEvents ++ [factSavedHiddenContent threadId confirmed],
            clientToolCall :=
              some ⟨"record_fact",
                    [("fact_id", confirmed.id), ("fact_text", confirmed.text)]⟩ })

/-! ## `get_weather`

The `weather` module (`normalize_unit`, `retrieve_weather`,
`WeatherLookupError`) and the weather widget renderer are external to the
embedded sources; their outcomes are oracle parameters.  Per the spec, unit
normalization and the lookup fail by raising the dedicated lookup error,
which is exactly what `get_weather` catches. -/

/-- A raised Python exception, as far as the tool contracts distinguish
them. -/
inductive PyExn
  | valueError (msg : String)
  | otherError (msg : String)
deriving DecidableEq

structure WeatherData where
  location : String
  temperature : Int
  temperatureUnit : String
  observationTime : Option String
deriving DecidableEq

/-- Modelled from the spec: the missing `weather` module's `normalize_unit`
and `retrieve_weather` "fail if the hint is unintelligible" / on lookup
failure by raising `WeatherLookupError` (here the `Except.error` message);
widget construction and streaming may fail with an arbitrary exception.
Each stage's outcome is an oracle field. -/
structure WeatherEnv where
  normalizeUnit : Option String → Except String String
  retrieveWeather : String → String → Except String WeatherData
  buildWidget : WeatherData → Except String String
  streamWidget : String → Except String Unit

structure WeatherPayload where
  location : String
  unit : String
  observedAt : Option String
deriving DecidableEq

/-- The error message used by `get_weather` when widget construction or
streaming fails. -/
def weatherUnavailableMsg : String :=
  "Weather data is currently unavailable for that location."

/-- The `get_weather` tool: normalize the unit and look up the weather,
re-raising a lookup error as `ValueError` with the same message; build and
stream the widget, turning any failure there into a fixed-message
`ValueError`.  The second component records the widgets actually surfaced
to the client. -/
def getWeather (env : WeatherEnv) (location : String) (unit : Option String) :
    Except PyExn WeatherPayload × List String :=
  match env.normalizeUnit unit with
  | .error msg => (.error (.valueError msg), [])
  | .ok normalizedUnit =>
    match env.retrieveWeather location normalizedUnit with
    | .error msg => (.error (.valueError msg), [])
    | .ok data =>
      match env.buildWidget data with
      | .error _ => (.error (.valueError weatherUnavailableMsg), [])
      | .ok widget =>
        match env.streamWidget widget with
        | .error _ => (.error (.valueError weatherUnavailableMsg), [])
        | .ok _ =>
          (.ok ⟨data.location, normalizedUnit, data.observationTime⟩, [widget])

/-! ## Reference images widget and tool -/

/-- One numbered entry of the reference-images gallery: the caption text,
the image source URL, and the image alt text. -/
structure GalleryEntry where
  label : String
  src : String
  alt : String
deriving DecidableEq

/-- The gallery widget: a fixed header title and the numbered entries. -/
structure GalleryWidget where
  titleText : String
  entries : List GalleryEntry
deriving DecidableEq

/-- Function `render_reference_images_widget`: one entry per URL, numbered from 1 in
list order, caption and alt text both `"Reference Image {idx}"`. -/
def renderReferenceImagesWidget (imageUrls : List String) : GalleryWidget :=
  { titleText := "Reference Images",
    entries := imageUrls.enum.map (fun p =>
      ⟨"Reference Image " ++ toString (p.1 + 1), p.2,
       "Reference Image " ++ toString (p.1 + 1)⟩) }

/-- Function `reference_images_widget_copy_text`. -/
def referenceImagesWidgetCopyText (imageUrls : List String) : String :=
  let imageCount := imageUrls.length
  if imageCount = 0 then "No reference images available."
  else if imageCount = 1 then
    "Reference Image 1 is displayed above for visual guidance."
  else
    "Reference Images 1-" ++ toString imageCount
      ++ " are displayed above for visual guidance."

/-- The `show_reference_images` tool: an empty URL list short-circuits with
a `no_images` success and no widget; otherwise render the gallery, stream
it with its copy text, and return a success summary with the count; a
streaming failure is re-raised as `ValueError`.  The second component
records the widgets streamed (with their copy text). -/
def showReferenceImages (streamWidget : GalleryWidget → String → Except String Unit)
    (imageUrls : List String) :
    Except PyExn (List (String × String)) × List (GalleryWidget × String) :=
  if imageUrls.isEmpty then
    (.ok [("status", "no_images"), ("message", "No images to display")], [])
  else
    let widget := renderReferenceImagesWidget imageUrls
    let copyText := referenceImagesWidgetCopyText imageUrls
    match streamWidget widget copyText with
    | .error msg =>
      (.error (.valueError ("Failed to display reference images: " ++ msg)), [])
    | .ok _ =>
      (.ok [("status", "success"),
            ("image_count", toString imageUrls.length),
            ("message", "Displayed " ++ toString imageUrls.length
              ++ " reference images")],
       [(widget, copyText)])

/-! ## SOP copy text (`sop_widget.py`) -/

/-- The `SOP` record from `sops.py`. -/
structure SOP where
  id : String
  title : String
  category : String
  keywords : List String
  content : String
  images : List String
  lastUpdated : Option String

/-- Function `sop_widget_copy_text`: title and category segments, an optional
last-updated segment (skipped when the stamp is absent or falsy), the body,
an image-count segment when images exist, and a keywords segment when
keywords exist; joined by newlines and stripped. -/
def sopWidgetCopyText (sop : SOP) : String :=
  let segments : List String :=
    ["SOP: " ++ sop.title, "Category: " ++ sop.category]
    ++ (match sop.lastUpdated with
        | some lu => if lu = "" then [] else ["Last updated: " ++ lu]
        | none => [])
    ++ ["\n" ++ sop.content]
    ++ (if sop.images.isEmpty then []
        else ["\n" ++ toString sop.images.length ++ " reference image(s) attached."])
    ++ (if sop.keywords.isEmpty then []
        else ["Keywords: " ++ pyJoin ", " sop.keywords])
  pyStrip (pyJoin "\n" segments)

/-! ## The tool registry of the assistant (`FactAssistantServer.__init__`) -/

/-- The names of the tools actually passed to the `Agent` constructor in
`FactAssistantServer.__init__` (`tools = [get_sop, show_structured_guide,
show_reference_images, switch_theme]`). -/
def assistantTools : List String :=
  ["get_sop", "show_structured_guide", "show_reference_images", "switch_theme"]

/-- The tool registry as the spec describes it: document lookup, image
gallery, structured guide, theme switch, and weather lookup.  Stated from
the spec's words for comparison against `assistantTools`. -/
def specToolRegistry : List String :=
  ["get_sop", "show_reference_images", "show_structured_guide",
   "switch_theme", "get_weather"]

/-! ## Claim theorems -/

/-- C2: when no inbound item is supplied and the store fetch raises, when
no candidate item exists, or when the candidate is a `ClientToolCallItem`,
`respond` yields zero output events; the store error is swallowed, not
propagated. -/
theorem respond_no_turn_cases {α ε : Type} (fetch : FetchResult)
    (converter : Option Converter) (behave : CallRecord → CallOutcome α)
    (runnerEvents : ResolvedInput α → List ε) :
    respond none FetchResult.error converter behave runnerEvents = [] ∧
    (latestThreadItem fetch = none →
      respond none fetch converter behave runnerEvents = []) ∧
    respond (some ThreadItemV.clientToolCall) fetch converter behave
      runnerEvents = [] ∧
    (latestThreadItem fetch = some ThreadItemV.clientToolCall →
      respond none fetch converter behave runnerEvents = []) := by
  refine ⟨rfl, ?_, rfl, ?_⟩ <;> intro h <;> simp [respond, h, isToolCompletionItem]

/-- Witness for `respond_no_turn_cases`: an empty thread page yields a turn
with zero events. -/
theorem respond_no_turn_cases_witness :
    respond (α := Nat) (ε := Nat) none (FetchResult.ok []) none
      (fun _ => CallOutcome.plain 0) (fun _ => [7]) = [] :=
  (respond_no_turn_cases (FetchResult.ok []) none
    (fun _ => CallOutcome.plain 0) (fun _ => [7])).2.1 rfl

/-- C3 counterexample: the agent is not configured with the spec's
five-tool registry — `get_weather` is never registered and only four tools
are passed to the `Agent` constructor. -/
theorem assistantTools_missing_weather :
    "get_weather" ∉ assistantTools ∧
    assistantTools.length = 4 ∧
    ¬ (∀ t ∈ specToolRegistry, t ∈ assistantTools) := by decide

/-- C3 (amended): the agent is configured with exactly the four tools
`get_sop`, `show_structured_guide`, `show_reference_images` and
`switch_theme`; the weather and fact-saving tools are defined but not
registered. -/
theorem assistantTools_exactly_four :
    assistantTools.Nodup ∧
    assistantTools.toFinset =
      {"get_sop", "show_structured_guide", "show_reference_images",
       "switch_theme"} ∧
    "get_weather" ∉ assistantTools ∧ "save_fact" ∉ assistantTools := by
  decide

/-- C10: when theme normalization fails, `switch_theme` returns `None`
without raising and leaves the per-turn context untouched: the pending
client tool call slot is not set and nothing is streamed. -/
theorem switchTheme_failure_leaves_state (theme : String) (ctx : TurnCtx)
    (h : normalizeColorScheme theme = none) :
    switchTheme theme ctx = (none, ctx) := by
  simp [switchTheme, h]

/-- Witness for `switchTheme_failure_leaves_state` at theme `"blue"`. -/
theorem switchTheme_failure_witness :
    normalizeColorScheme "blue" = none ∧
    switchTheme "blue" ⟨[], none⟩ = (none, ⟨[], none⟩) :=
  ⟨by decide, switchTheme_failure_leaves_state "blue" ⟨[], none⟩ (by decide)⟩

/-- C5: every failing run of `get_weather` — whether unit normalization,
the lookup, widget construction, or widget streaming failed — surfaces a
`ValueError` (never a raw lower-level exception) and streams no widget. -/
theorem getWeather_failures (env : WeatherEnv) (location : String)
    (unit : Option String) (e : PyExn) (ws : List String)
    (h : getWeather env location unit = (Except.error e, ws)) :
    (∃ msg, e = PyExn.valueError msg) ∧ ws = [] := by
  unfold getWeather at h
  cases hn : env.normalizeUnit unit <;>
    simp only [hn, Prod.mk.injEq, Except.error.injEq] at h
  case error msg => exact ⟨⟨msg, h.1.symm⟩, h.2.symm⟩
  case ok normalizedUnit =>
    cases hr : env.retrieveWeather location normalizedUnit <;>
      simp only [hr, Prod.mk.injEq, Except.error.injEq] at h
    case error msg => exact ⟨⟨msg, h.1.symm⟩, h.2.symm⟩
    case ok data =>
      cases hb : env.buildWidget data <;>
        simp only [hb, Prod.mk.injEq, Except.error.injEq] at h
      case error msg => exact ⟨⟨weatherUnavailableMsg, h.1.symm⟩, h.2.symm⟩
      case ok widget =>
        cases hs : env.streamWidget widget <;>
          simp only [hs, Prod.mk.injEq, Except.error.injEq] at h
        case error msg => exact ⟨⟨weatherUnavailableMsg, h.1.symm⟩, h.2.symm⟩
        case ok u => exact Except.noConfusion h.1

/-- Witness for `getWeather_failures`: a failing unit normalization yields
a `ValueError` and no streamed widget. -/
theorem getWeather_failures_witness :
    (∃ msg, PyExn.valueError "bad unit" = PyExn.valueError msg) ∧
      ([] : List String) = [] :=
  getWeather_failures
    ⟨fun _ => Except.error "bad unit",
     fun _ _ => Except.error "unreachable",
     fun _ => Except.error "unreachable",
     fun _ => Except.error "unreachable"⟩
    "Paris" none (PyExn.valueError "bad unit") [] rfl

/-- The `FACT_SAVED` hidden content contains the confirmed fact's id and
text as substrings. -/
theorem factSavedHiddenContent_encodes (threadId : String) (fact : Fact) :
    fact.id.data <:+: (factSavedHiddenContent threadId fact).data ∧
    fact.text.data <:+: (factSavedHiddenContent threadId fact).data := by
  constructor
  · refine ⟨"<FACT_SAVED id=\"".data,
      ("\" threadId=\"" ++ threadId ++ "\">" ++ fact.text
        ++ "</FACT_SAVED>").data, ?_⟩
    simp [factSavedHiddenContent, String.data_append]
  · refine ⟨("<FACT_SAVED id=\"" ++ fact.id ++ "\" threadId=\"" ++ threadId
      ++ "\">").data, "</FACT_SAVED>".data, ?_⟩
    simp [factSavedHiddenContent, String.data_append]

/-- C7: on the fully successful path `save_fact` persists and confirms the
fact, emits one hidden-context event encoding the confirmed id and text,
records the pending `record_fact` client action, and returns the confirmed
id with status `saved`; a failure at any stage (persist, confirm,
confirmation returning nothing, hidden-event streaming) yields `None` with
the context unchanged and nothing raised. -/
theorem saveFact_contract (env : FactEnv) (threadId factText : String)
    (ctx : TurnCtx) :
    (∀ saved confirmed,
      env.create factText = Except.ok saved →
      env.markSaved saved.id = Except.ok (some confirmed) →
      env.streamHidden (factSavedHiddenContent threadId confirmed) =
        Except.ok () →
      saveFact env threadId factText ctx =
        (some ⟨confirmed.id, "saved"⟩,
         { hiddenEvents :=
             ctx.hiddenEvents ++ [factSavedHiddenContent threadId confirmed],
           clientToolCall :=
             some ⟨"record_fact",
               [("fact_id", confirmed.id), ("fact_text", confirmed.text)]⟩ }) ∧
      confirmed.id.data <:+: (factSavedHiddenContent threadId confirmed).data ∧
      confirmed.text.data <:+: (factSavedHiddenContent threadId confirmed).data) ∧
    (∀ e, env.create factText = Except.error e →
      saveFact env threadId factText ctx = (none, ctx)) ∧
    (∀ saved e, env.create factText = Except.ok saved →
      env.markSaved saved.id = Except.error e →
      saveFact env threadId factText ctx = (none, ctx)) ∧
    (∀ saved, env.create factText = Except.ok saved →
      env.markSaved saved.id = Except.ok none →
      saveFact env threadId factText ctx = (none, ctx)) ∧
    (∀ saved confirmed e, env.create factText = Except.ok saved →
      env.markSaved saved.id = Except.ok (some confirmed) →
      env.streamHidden (factSavedHiddenContent threadId confirmed) =
        Except.error e →
      saveFact env threadId factText ctx = (none, ctx)) := by
  refine ⟨?_, ?_, ?_, ?_, ?_⟩
  · intro saved confirmed h1 h2 h3
    exact ⟨by simp [saveFact, h1, h2, h3],
      factSavedHiddenContent_encodes threadId confirmed⟩
  · intro e h1; simp [saveFact, h1]
  · intro saved e h1 h2; simp [saveFact, h1, h2]
  · intro saved h1 h2; simp [saveFact, h1, h2]
  · intro saved confirmed e h1 h2 h3; simp [saveFact, h1, h2, h3]

/-- Witness for `saveFact_contract`: a concrete successful save. -/
theorem saveFact_contract_witness :
    saveFact
      ⟨fun t => Except.ok ⟨"f1", t⟩,
       fun _ => Except.ok (some ⟨"f1", "the fact"⟩),
       fun _ => Except.ok ()⟩
      "th_1" "the fact" ⟨[], none⟩ =
      (some ⟨"f1", "saved"⟩,
       { hiddenEvents :=
           ([] : List String) ++ [factSavedHiddenContent "th_1" ⟨"f1", "the fact"⟩],
         clientToolCall :=
           some ⟨"record_fact",
             [("fact_id", "f1"), ("fact_text", "the fact")]⟩ }) :=
  ((saveFact_contract
      ⟨fun t => Except.ok ⟨"f1", t⟩,
       fun _ => Except.ok (some ⟨"f1", "the fact"⟩),
       fun _ => Except.ok ()⟩
      "th_1" "the fact" ⟨[], none⟩).1
    ⟨"f1", "the fact"⟩ ⟨"f1", "the fact"⟩ rfl rfl rfl).1

/-- C6: the image-gallery tool short-circuits on an empty list with a
`no_images` success and no widget; for N ≥ 1 URLs it streams exactly one
widget whose entries are numbered sequentially from 1, with the exact copy
text for N = 1 and N > 1, returning a success summary carrying the
count. -/
theorem showReferenceImages_contract
    (streamW : GalleryWidget → String → Except String Unit)
    (imageUrls : List String) :
    showReferenceImages streamW [] =
      (Except.ok [("status", "no_images"), ("message", "No images to display")],
       []) ∧
    (renderReferenceImagesWidget imageUrls).entries.length = imageUrls.length ∧
    (∀ i : Nat, (renderReferenceImagesWidget imageUrls).entries[i]? =
      imageUrls[i]?.map (fun u =>
        GalleryEntry.mk ("Reference Image " ++ toString (i + 1)) u
          ("Reference Image " ++ toString (i + 1)))) ∧
    (imageUrls.length = 1 →
      referenceImagesWidgetCopyText imageUrls =
        "Reference Image 1 is displayed above for visual guidance.") ∧
    (1 < imageUrls.length →
      referenceImagesWidgetCopyText imageUrls =
        "Reference Images 1-" ++ toString imageUrls.length
          ++ " are displayed above for visual guidance.") ∧
    (imageUrls ≠ [] →
      streamW (renderReferenceImagesWidget imageUrls)
        (referenceImagesWidgetCopyText imageUrls) = Except.ok () →
      showReferenceImages streamW imageUrls =
        (Except.ok [("status", "success"),
                    ("image_count", toString imageUrls.length),
                    ("message", "Displayed " ++ toString imageUrls.length
                      ++ " reference images")],
         [(renderReferenceImagesWidget imageUrls,
           referenceImagesWidgetCopyText imageUrls)])) := by
  refine ⟨rfl, ?_, ?_, ?_, ?_, ?_⟩
  · simp [renderReferenceImagesWidget]
  · intro i
    simp only [renderReferenceImagesWidget, List.getElem?_map,
      List.getElem?_enum, Option.map_map]
    rfl
  · intro h
    simp [referenceImagesWidgetCopyText, h]
  · intro h
    have h0 : imageUrls.length ≠ 0 := by omega
    have h1 : imageUrls.length ≠ 1 := by omega
    simp [referenceImagesWidgetCopyText, h0, h1]
  · intro hne hs
    have hempty : imageUrls.isEmpty = false := by
      simpa [List.isEmpty_iff] using hne
    simp [showReferenceImages, hempty, hs]

/-- Witness for `showReferenceImages_contract`: two URLs stream one widget
with two numbered entries. -/
theorem showReferenceImages_witness :
    showReferenceImages (fun _ _ => Except.ok ()) ["u1", "u2"] =
      (Except.ok [("status", "success"),
                  ("image_count", toString (["u1", "u2"] : List String).length),
                  ("message", "Displayed "
                    ++ toString (["u1", "u2"] : List String).length
                    ++ " reference images")],
       [(renderReferenceImagesWidget ["u1", "u2"],
         referenceImagesWidgetCopyText ["u1", "u2"])]) :=
  (showReferenceImages_contract (fun _ _ => Except.ok ())
    ["u1", "u2"]).2.2.2.2.2 (by decide) rfl

/-- C8: with no converter configured, or a converter exposing none of the
recognized method names, a user-message item resolves to its text parts
joined by a single space and trimmed (in particular parts `"Hello"`,
`"world"` resolve to exactly `"Hello world"`), and every non-user-message
variant resolves to no input, the turn producing zero events. -/
theorem fallback_input_resolution {α ε : Type} (behave : CallRecord → CallOutcome α)
    (parts : List (Option String)) (c : Converter) (item : ThreadItemV)
    (fetch : FetchResult) (runnerEvents : ResolvedInput α → List ε) :
    toAgentInput none behave (ThreadItemV.userMessage parts) =
      some (ResolvedInput.fallbackText (userMessageText parts)) ∧
    (probeConverterMethod c = none →
      toAgentInput (some c) behave (ThreadItemV.userMessage parts) =
        some (ResolvedInput.fallbackText (userMessageText parts))) ∧
    userMessageText [some "Hello", some "world"] = "Hello world" ∧
    ((∀ ps, item ≠ ThreadItemV.userMessage ps) →
      toAgentInput none behave item = none ∧
      respond (some item) fetch none behave runnerEvents = []) := by
  refine ⟨rfl, ?_, by decide, ?_⟩
  · intro h
    simp [toAgentInput, h, isToolCompletionItem, fallbackInput]
  · intro h
    cases item with
    | userMessage ps => exact absurd rfl (h ps)
    | clientToolCall => exact ⟨rfl, rfl⟩
    | hiddenContext s => exact ⟨rfl, rfl⟩
    | other => exact ⟨rfl, rfl⟩

/-- Witness for `fallback_input_resolution`: a converter with no methods
falls back to text extraction, and a hidden-context item aborts the
turn. -/
theorem fallback_input_resolution_witness :
    toAgentInput (α := Nat) (some ⟨[]⟩) (fun _ => CallOutcome.plain 0)
      (ThreadItemV.userMessage [some "Hello", some "world"]) =
      some (ResolvedInput.fallbackText
        (userMessageText [some "Hello", some "world"])) ∧
    respond (α := Nat) (ε := Nat) (some (ThreadItemV.hiddenContext "x"))
      (FetchResult.ok []) none (fun _ => CallOutcome.plain 0)
      (fun _ => [7]) = [] :=
  ⟨(fallback_input_resolution (fun _ => CallOutcome.plain 0)
      [some "Hello", some "world"] ⟨[]⟩ (ThreadItemV.hiddenContext "x")
      (FetchResult.ok []) (fun _ => [7])).2.1 rfl,
   ((fallback_input_resolution (fun _ => CallOutcome.plain 0)
      [some "Hello", some "world"] ⟨[]⟩ (ThreadItemV.hiddenContext "x")
      (FetchResult.ok []) (fun _ => [7])).2.2.2
      (fun _ h => ThreadItemV.noConfusion h)).2⟩

/-- The decision core of theme normalization: possible results, the exact
match, the substring branches in order, and the failure case. -/
theorem colorSchemeDecision_props (n : String) :
    (∀ r, colorSchemeDecision n = some r → r = "dark" ∨ r = "light") ∧
    (n = "dark" ∨ n = "light" → colorSchemeDecision n = some n) ∧
    (pyContains n "dark" → colorSchemeDecision n = some "dark") ∧
    (¬ pyContains n "dark" → pyContains n "light" →
      colorSchemeDecision n = some "light") ∧
    (¬ pyContains n "dark" → ¬ pyContains n "light" →
      colorSchemeDecision n = none) := by
  refine ⟨?_, ?_, ?_, ?_, ?_⟩
  · intro r hr
    unfold colorSchemeDecision at hr
    split at hr
    · rename_i hmem
      cases hr
      simpa [SUPPORTED_COLOR_SCHEMES, or_comm] using hmem
    · split at hr
      · cases hr; exact Or.inl rfl
      · split at hr
        · cases hr; exact Or.inr rfl
        · exact Option.noConfusion hr
  · rintro (rfl | rfl) <;> decide
  · intro h
    by_cases hmem : n ∈ SUPPORTED_COLOR_SCHEMES
    · simp only [SUPPORTED_COLOR_SCHEMES, List.mem_cons,
        List.mem_singleton, List.not_mem_nil, or_false] at hmem
      rcases hmem with rfl | rfl
      · exact absurd h (by decide)
      · decide
    · unfold colorSchemeDecision
      rw [if_neg hmem, if_pos h]
  · intro hd hl
    by_cases hmem : n ∈ SUPPORTED_COLOR_SCHEMES
    · simp only [SUPPORTED_COLOR_SCHEMES, List.mem_cons,
        List.mem_singleton, List.not_mem_nil, or_false] at hmem
      rcases hmem with rfl | rfl
      · decide
      · exact absurd (by decide : pyContains "dark" "dark") hd
    · unfold colorSchemeDecision
      rw [if_neg hmem, if_neg hd, if_pos hl]
  · intro hd hl
    have hmem : n ∉ SUPPORTED_COLOR_SCHEMES := by
      simp only [SUPPORTED_COLOR_SCHEMES, List.mem_cons,
        List.mem_singleton, List.not_mem_nil, or_false]
      rintro (rfl | rfl)
      · exact hl (by decide)
      · exact hd (by decide)
    unfold colorSchemeDecision
    rw [if_neg hmem, if_neg hd, if_neg hl]

/-- C4: theme normalization only ever returns `"dark"` or `"light"`; an
exact stripped case-insensitive match is returned as is; otherwise a
lowered input containing `"dark"` yields `"dark"` (dark checked before
light), else one containing `"light"` yields `"light"`; all other inputs
fail. -/
theorem normalizeColorScheme_contract (value : String) :
    (∀ r, normalizeColorScheme value = some r → r = "dark" ∨ r = "light") ∧
    (pyLower (pyStrip value) = "dark" ∨ pyLower (pyStrip value) = "light" →
      normalizeColorScheme value = some (pyLower (pyStrip value))) ∧
    (pyContains (pyLower (pyStrip value)) "dark" →
      normalizeColorScheme value = some "dark") ∧
    (¬ pyContains (pyLower (pyStrip value)) "dark" →
      pyContains (pyLower (pyStrip value)) "light" →
      normalizeColorScheme value = some "light") ∧
    (¬ pyContains (pyLower (pyStrip value)) "dark" →
      ¬ pyContains (pyLower (pyStrip value)) "light" →
      normalizeColorScheme value = none) :=
  colorSchemeDecision_props (pyLower (pyStrip value))

/-- Witness for `normalizeColorScheme_contract` at three inputs covering
the substring branches and failure. -/
theorem normalizeColorScheme_contract_witness :
    normalizeColorScheme " DarkMode!" = some "dark" ∧
    normalizeColorScheme "twilight" = some "light" ∧
    normalizeColorScheme "blue" = none :=
  ⟨(normalizeColorScheme_contract " DarkMode!").2.2.1 (by decide),
   (normalizeColorScheme_contract "twilight").2.2.2.1 (by decide) (by decide),
   (normalizeColorScheme_contract "blue").2.2.2.2 (by decide) (by decide)⟩

/-- A method found under an attribute name bears that name. -/
theorem getattr_name (c : Converter) (attr : String) (m : ConverterMethod)
    (h : c.getattr attr = some m) : m.name = attr := by
  simpa using List.find?_some h

/-- C1: with a configured converter exposing at least one recognized
method name, input resolution calls exactly the first method found in the
fixed preference order `to_input_item`, `convert`, `convert_item`,
`convert_thread_item` (every earlier name is absent), passes the thread
item as first argument, passes the thread reference second — positionally
or by keyword — exactly when the reported signature has a second
non-variadic parameter, and awaits an awaitable result before returning
it. -/
theorem converter_call_contract {α : Type} (c : Converter)
    (behave : CallRecord → CallOutcome α) (item : ThreadItemV)
    (hitem : isToolCompletionItem item = false)
    (m : ConverterMethod) (hm : probeConverterMethod c = some m) :
    toAgentInput (some c) behave item =
      some (ResolvedInput.viaConverter ⟨m.name, item, threadArgPassing m⟩
        (awaitIfAwaitable (behave ⟨m.name, item, threadArgPassing m⟩))) ∧
    (∃ k : Nat, converterMethodOrder[k]? = some m.name ∧
      c.getattr m.name = some m ∧
      ∀ j : Nat, j < k → ∀ n, converterMethodOrder[j]? = some n →
        c.getattr n = none) ∧
    (threadArgPassing m = ThreadArgPassing.notPassed ↔
      secondNonVariadicParam m = none) ∧
    (∀ p, secondNonVariadicParam m = some p →
      ((p.kind = ParamKind.positionalOnly ∨
        p.kind = ParamKind.positionalOrKeyword) →
        threadArgPassing m = ThreadArgPassing.positional) ∧
      (p.kind = ParamKind.keywordOnly →
        threadArgPassing m = ThreadArgPassing.keyword p.name)) := by
  refine ⟨?_, ?_, ?_, ?_⟩
  · simp [toAgentInput, hitem, hm]
  · unfold probeConverterMethod converterMethodOrder at hm
    cases h0 : c.getattr "to_input_item" with
    | some m0 =>
      simp only [List.findSome?_cons, h0] at hm
      cases hm
      have hname := getattr_name c _ _ h0
      exact ⟨0, by simp [converterMethodOrder, hname],
        by rw [hname]; exact h0,
        fun j hj => (Nat.not_lt_zero j hj).elim⟩
    | none =>
      cases h1 : c.getattr "convert" with
      | some m1 =>
        simp only [List.findSome?_cons, h0, h1] at hm
        cases hm
        have hname := getattr_name c _ _ h1
        refine ⟨1, by simp [converterMethodOrder, hname],
          by rw [hname]; exact h1, ?_⟩
        intro j hj n hn
        interval_cases j
        simp only [converterMethodOrder] at hn
        cases hn
        exact h0
      | none =>
        cases h2 : c.getattr "convert_item" with
        | some m2 =>
          simp only [List.findSome?_cons, h0, h1, h2] at hm
          cases hm
          have hname := getattr_name c _ _ h2
          refine ⟨2, by simp [converterMethodOrder, hname],
            by rw [hname]; exact h2, ?_⟩
          intro j hj n hn
          interval_cases j <;> simp only [converterMethodOrder] at hn <;>
            cases hn
          · exact h0
          · exact h1
        | none =>
          cases h3 : c.getattr "convert_thread_item" with
          | some m3 =>
            simp only [List.findSome?_cons, h0, h1, h2, h3] at hm
            cases hm
            have hname := getattr_name c _ _ h3
            refine ⟨3, by simp [converterMethodOrder, hname],
              by rw [hname]; exact h3, ?_⟩
            intro j hj n hn
            interval_cases j <;> simp only [converterMethodOrder] at hn <;>
              cases hn
            · exact h0
            · exact h1
            · exact h2
          | none =>
            simp only [List.findSome?_cons, h0, h1, h2, h3,
              List.findSome?_nil] at hm
            exact Option.noConfusion hm
  · unfold threadArgPassing secondNonVariadicParam
    cases hsig : m.signature with
    | none => simp
    | some sig =>
      cases hf : sig.filter nonVariadic with
      | nil => simp [hf]
      | cons a tail =>
        cases tail with
        | nil => simp [hf]
        | cons b rest =>
          by_cases hb : b.kind = ParamKind.positionalOnly ∨
              b.kind = ParamKind.positionalOrKeyword
          · simp [hf, hb]
          · simp [hf, hb]
  · intro p hp
    unfold secondNonVariadicParam at hp
    unfold threadArgPassing
    cases hsig : m.signature with
    | none =>
      simp only [hsig] at hp
      exact Option.noConfusion hp
    | some sig =>
      simp only [hsig] at hp ⊢
      cases hf : sig.filter nonVariadic with
      | nil => simp [hf] at hp
      | cons a tail =>
        cases tail with
        | nil => simp [hf] at hp
        | cons b rest =>
          simp only [hf, List.getElem?_cons_succ, List.getElem?_cons_zero,
            Option.some.injEq] at hp ⊢
          subst hp
          constructor
          · intro hkind
            simp [hkind]
          · intro hkind
            have hnot : ¬ (b.kind = ParamKind.positionalOnly ∨
                b.kind = ParamKind.positionalOrKeyword) := by
              simp [hkind]
            simp [hnot]

/-- Witness for `converter_call_contract`: a converter whose `convert`
method takes `(item, thread)` positionally gets the thread passed
positionally and its awaitable result awaited. -/
theorem converter_call_contract_witness :
    toAgentInput (α := Nat)
      (some ⟨[⟨"convert", some [⟨"item", ParamKind.positionalOrKeyword⟩,
        ⟨"thread", ParamKind.positionalOrKeyword⟩]⟩]⟩)
      (fun _ => CallOutcome.awaitable 42) (ThreadItemV.userMessage []) =
      some (ResolvedInput.viaConverter
        ⟨"convert", ThreadItemV.userMessage [], ThreadArgPassing.positional⟩
        42) :=
  (converter_call_contract
    ⟨[⟨"convert", some [⟨"item", ParamKind.positionalOrKeyword⟩,
      ⟨"thread", ParamKind.positionalOrKeyword⟩]⟩]⟩
    (fun _ => CallOutcome.awaitable 42) (ThreadItemV.userMessage [])
    rfl
    ⟨"convert", some [⟨"item", ParamKind.positionalOrKeyword⟩,
      ⟨"thread", ParamKind.positionalOrKeyword⟩]⟩
    rfl).1

/-! ## Strip/containment lemmas for the SOP copy text -/

/-- Strings with equal character data are equal. -/
theorem string_eq_of_data {s t : String} (h : s.data = t.data) : s = t :=
  congrArg String.mk h

/-- A `dropWhile` stops no later than an element the predicate rejects. -/
theorem dropWhile_append_cons_of_neg {α : Type} (p : α → Bool) (u : List α)
    (c : α) (v : List α) (hc : p c = false) :
    (u ++ c :: v).dropWhile p = u.dropWhile p ++ c :: v := by
  have hc' : ¬ p c = true := by simp [hc]
  induction u with
  | nil =>
    simp [List.dropWhile_cons_of_neg hc']
  | cons x xs ih =>
    by_cases hx : p x = true
    · simp [List.dropWhile_cons_of_pos hx, ih]
    · simp [List.dropWhile_cons_of_neg hx]

/-- Stripping a list that starts and is later anchored by non-space
characters only trims inside the trailing part `Z`. -/
theorem pyStripChars_split (a c : Char) (X Z : List Char)
    (ha : isPySpace a = false) (hc : isPySpace c = false) :
    pyStripChars (a :: (X ++ c :: Z)) =
      (a :: X) ++ c :: (Z.reverse.dropWhile isPySpace).reverse := by
  unfold pyStripChars
  rw [List.dropWhile_cons_of_neg (by simp [ha])]
  rw [show (a :: (X ++ c :: Z)).reverse
      = Z.reverse ++ c :: (X.reverse ++ [a]) by
    simp [List.reverse_cons, List.reverse_append, List.append_assoc]]
  rw [dropWhile_append_cons_of_neg _ _ _ _ hc]
  simp [List.reverse_append, List.reverse_cons, List.append_assoc]

/-- A list that decomposes around a substring contains it as an infix. -/
theorem infix_of_parts (U V m : String) (L : List Char)
    (h : L = U.data ++ (m.data ++ V.data)) : m.data <:+: L :=
  ⟨U.data, V.data, by rw [h]; simp [List.append_assoc]⟩

/-- Stripping preserves any substring of the prefix up to a non-space
anchor character, whatever follows the anchor. -/
theorem infix_pyStrip_split (s pre rest m : String) (a c : Char)
    (hs : s.data = pre.data ++ c :: rest.data)
    (hhead : pre.data.head? = some a)
    (ha : isPySpace a = false) (hc : isPySpace c = false)
    (hm : m.data <:+: pre.data ++ [c]) :
    m.data <:+: (pyStrip s).data := by
  have hdata : (pyStrip s).data = pyStripChars s.data := rfl
  rw [hdata, hs]
  cases hpre : pre.data with
  | nil =>
    rw [hpre] at hhead
    exact Option.noConfusion hhead
  | cons a0 X =>
    rw [hpre] at hhead hm
    have ha0 : a0 = a := by simpa using hhead
    subst ha0
    rw [List.cons_append, pyStripChars_split a0 c X rest.data ha hc]
    rw [List.append_cons (a0 :: X) c]
    exact hm.trans (List.prefix_append _ _).isInfix

/-- The SOP copy-text skeleton: for any string whose data decomposes as
title and category segments, middle segments, the image-count sentence and
trailing segments, the stripped string keeps the title, the category, and
the image-count sentence. -/
theorem sop_copy_skeleton (s t cat MID REST : String)
    (hs : s.data = ("SOP: " ++ t ++ "\n" ++ "Category: " ++ cat
      ++ MID ++ ("\n" ++ "2" ++ " reference image(s) attached.")
      ++ REST).data) :
    t.data <:+: (pyStrip s).data ∧
    cat.data <:+: (pyStrip s).data ∧
    ("2 reference image(s) attached." : String).data <:+:
      (pyStrip s).data := by
  have hsop : ("SOP: " : String) = "S" ++ "OP: " := rfl
  have hS : ("S" : String).data = ['S'] := rfl
  have hdot : ("." : String).data = ['.'] := rfl
  have hatt : (" reference image(s) attached." : String)
      = " reference image(s) attached" ++ "." := rfl
  have hatt3 : ("2 reference image(s) attached." : String)
      = "2" ++ " reference image(s) attached." := rfl
  refine ⟨?_, ?_, ?_⟩ <;>
    refine infix_pyStrip_split s
      ("SOP: " ++ t ++ "\n" ++ "Category: " ++ cat ++ MID
        ++ "\n" ++ "2" ++ " reference image(s) attached")
      REST _ 'S' '.'
      (by rw [hs]; simp [hatt, hdot, String.data_append, List.append_assoc])
      (by simp [hsop, hS, String.data_append, List.append_assoc])
      (by decide) (by decide) ?_
  · exact infix_of_parts "SOP: "
      ("\n" ++ "Category: " ++ cat ++ MID
        ++ "\n" ++ "2" ++ " reference image(s) attached" ++ ".") t _
      (by simp [hdot, String.data_append, List.append_assoc])
  · exact infix_of_parts ("SOP: " ++ t ++ "\n" ++ "Category: ")
      (MID ++ "\n" ++ "2" ++ " reference image(s) attached" ++ ".") cat _
      (by simp [hdot, String.data_append, List.append_assoc])
  · exact infix_of_parts
      ("SOP: " ++ t ++ "\n" ++ "Category: " ++ cat ++ MID ++ "\n") "" _ _
      (by simp [hatt, hatt3, hdot, String.data_append, List.append_assoc])

/-- C9: for every SOP with exactly two image references, the widget copy
text contains the document's title, its category, and the exact sentence
"2 reference image(s) attached.". -/
theorem sopWidgetCopyText_two_images (sop : SOP)
    (h2 : sop.images.length = 2) :
    sop.title.data <:+: (sopWidgetCopyText sop).data ∧
    sop.category.data <:+: (sopWidgetCopyText sop).data ∧
    ("2 reference image(s) attached." : String).data <:+:
      (sopWidgetCopyText sop).data := by
  have himg : sop.images.isEmpty = false := by
    cases h : sop.images with
    | nil => rw [h] at h2; simp at h2
    | cons x xs => rfl
  have ht2 : toString (2 : Nat) = "2" := rfl
  cases hlu : sop.lastUpdated with
  | none =>
    cases hkw : sop.keywords with
    | nil =>
      simp only [sopWidgetCopyText, hlu, hkw, himg, h2, ht2,
        List.isEmpty_nil, List.nil_append, List.append_nil, if_true,
        Bool.false_eq_true, if_false, List.cons_append, pyJoin]
      exact sop_copy_skeleton _ sop.title sop.category
        ("\n" ++ "\n" ++ sop.content ++ "\n") ""
        (by simp [String.data_append, List.append_assoc])
    | cons k ks =>
      simp only [sopWidgetCopyText, hlu, hkw, himg, h2, ht2,
        List.isEmpty_nil, List.isEmpty_cons, List.nil_append,
        List.append_nil, if_true, Bool.false_eq_true, if_false,
        List.cons_append, pyJoin]
      exact sop_copy_skeleton _ sop.title sop.category
        ("\n" ++ "\n" ++ sop.content ++ "\n")
        ("\n" ++ ("Keywords: " ++ pyJoin ", " (k :: ks)))
        (by simp [String.data_append, List.append_assoc])
  | some lu =>
    by_cases hlu0 : lu = ""
    · subst hlu0
      cases hkw : sop.keywords with
      | nil =>
        simp only [sopWidgetCopyText, hlu, hkw, himg, h2, ht2,
          List.isEmpty_nil, List.nil_append, List.append_nil, if_true,
          Bool.false_eq_true, if_false, List.cons_append, pyJoin]
        exact sop_copy_skeleton _ sop.title sop.category
          ("\n" ++ "\n" ++ sop.content ++ "\n") ""
          (by simp [String.data_append, List.append_assoc])
      | cons k ks =>
        simp only [sopWidgetCopyText, hlu, hkw, himg, h2, ht2,
          List.isEmpty_nil, List.isEmpty_cons, List.nil_append,
          List.append_nil, if_true, Bool.false_eq_true, if_false,
          List.cons_append, pyJoin]
        exact sop_copy_skeleton _ sop.title sop.category
          ("\n" ++ "\n" ++ sop.content ++ "\n")
          ("\n" ++ ("Keywords: " ++ pyJoin ", " (k :: ks)))
          (by simp [String.data_append, List.append_assoc])
    · cases hkw : sop.keywords with
      | nil =>
        simp only [sopWidgetCopyText, hlu, hkw, himg, h2, ht2, hlu0,
          List.isEmpty_nil, List.nil_append, List.append_nil, if_true,
          Bool.false_eq_true, if_false, List.cons_append, pyJoin]
        exact sop_copy_skeleton _ sop.title sop.category
          ("\n" ++ "Last updated: " ++ lu ++ "\n" ++ "\n"
            ++ sop.content ++ "\n") ""
          (by simp [String.data_append, List.append_assoc])
      | cons k ks =>
        simp only [sopWidgetCopyText, hlu, hkw, himg, h2, ht2, hlu0,
          List.isEmpty_nil, List.isEmpty_cons, List.nil_append,
          List.append_nil, if_true, Bool.false_eq_true, if_false,
          List.cons_append, pyJoin]
        exact sop_copy_skeleton _ sop.title sop.category
          ("\n" ++ "Last updated: " ++ lu ++ "\n" ++ "\n"
            ++ sop.content ++ "\n")
          ("\n" ++ ("Keywords: " ++ pyJoin ", " (k :: ks)))
          (by simp [String.data_append, List.append_assoc])

/-- Witness for `sopWidgetCopyText_two_images` on a concrete SOP. -/
theorem sopWidgetCopyText_two_images_witness :
    ("Pack order" : String).data <:+:
      (sopWidgetCopyText ⟨"sop1", "Pack order", "Shipping", [],
        "Seal the box.", ["u1", "u2"], none⟩).data ∧
    ("Shipping" : String).data <:+:
      (sopWidgetCopyText ⟨"sop1", "Pack order", "Shipping", [],
        "Seal the box.", ["u1", "u2"], none⟩).data ∧
    ("2 reference image(s) attached." : String).data <:+:
      (sopWidgetCopyText ⟨"sop1", "Pack order", "Shipping", [],
        "Seal the box.", ["u1", "u2"], none⟩).data :=
  sopWidgetCopyText_two_images
    ⟨"sop1", "Pack order", "Shipping", [], "Seal the box.",
      ["u1", "u2"], none⟩ rfl

end ChatKit
